import Mathlib

/-!
Shallow embedding of `packages/insomnia/src/ui/components/modals/workspace-environments-edit-modal.tsx`.

The component is UI wiring over a reactive store (redux selectors: active workspace,
active workspace meta, environment list) and local component state (the loaded base
environment and the selected environment id).  Event handlers read the store and the
local state and (a) update local state, (b) issue persistence calls to the external
model layer (`models.environment.*`, `models.workspaceMeta.*`).

We embed each handler as a pure function `Store → LocalState → event → LocalState × List Effect`
where the ordered `Effect` list records the persistence calls the handler issues, in
the order the code issues them.  `applyEffect` models what the external persistence
layer does to the store when such a call lands.

JavaScript truthiness on nullable strings (`!x`, `x || y`) is modelled explicitly:
`null`/`undefined` and the empty string are falsy.  Strict equality between a
`string | null` and a possibly `undefined` field is modelled by matching on both
options (`null === undefined` is `false` in JS).
-/

/-- Environment record (the fields of `models/environment.ts` this component reads):
identity, parent reference, display name, optional color, privacy flag and the
numeric `metaSortKey` that orders siblings. -/
structure Environment where
  _id : String
  parentId : String
  name : String
  color : Option String
  isPrivate : Bool
  metaSortKey : Int
deriving Repr, DecidableEq

/-- Active workspace as observed through `selectActiveWorkspace`. -/
structure Workspace where
  _id : String
deriving Repr, DecidableEq

/-- Workspace metadata record: tracks the currently active environment id
(`activeEnvironmentId : string | null`). -/
structure WorkspaceMeta where
  activeEnvironmentId : Option String
deriving Repr, DecidableEq

/-- The reactive store the component observes via selectors:
`selectActiveWorkspace`, `selectActiveWorkspaceMeta`, `selectEnvironments`. -/
structure Store where
  workspace : Option Workspace
  workspaceMeta : Option WorkspaceMeta
  environments : List Environment
deriving Repr, DecidableEq

/-- Local component state (the `State` interface of the modal):
`baseEnvironment : Environment | null`, `selectedEnvironmentId : string | null`. -/
structure LocalState where
  baseEnvironment : Option Environment
  selectedEnvironmentId : Option String
deriving Repr, DecidableEq

/-- Partial patch passed to `models.environment.update` (the fields this component
ever patches, besides the data document which no claim touches).  `color := some none`
models the JS patch `\x7b color: null \x7d`. -/
structure EnvironmentPatch where
  name : Option String := none
  color : Option (Option String) := none
  metaSortKey : Option Int := none
deriving Repr, DecidableEq

/-- Persistence calls issued by the handlers, in issue order. -/
inductive Effect where
  | updateEnvironment (id : String) (patch : EnvironmentPatch)
  | removeEnvironment (id : String)
  | updateWorkspaceMeta (activeEnvironmentId : Option String)
deriving Repr, DecidableEq

/-- JS truthiness of a `string | null | undefined` value: null, undefined and the
empty string are falsy. -/
def truthyStr : Option String → Bool
  | none => false
  | some s => s != ""

/-- JS `x || null` on a `string | null | undefined` value: a falsy `x` collapses to null. -/
def jsOrNull (x : Option String) : Option String :=
  if truthyStr x then x else none

/-- JS `x || d` where `x : string | null | undefined` and `d : string`. -/
def jsOrDefault (x : Option String) (d : String) : String :=
  match x with
  | some s => if s == "" then d else s
  | none => d

/-- JS strict equality between two `string | null | undefined` values where one side
may stem from optional chaining: it holds only when both sides are actual strings and
equal (`null === undefined` is false, and a string never strictly equals null). -/
def strictEqStr : Option String → Option String → Bool
  | some a, some b => a == b
  | _, _ => false

/-- Sibling order relation used by the sort comparator
`(e1, e2) => e1.metaSortKey - e2.metaSortKey`: ascending `metaSortKey`. -/
def sortKeyLE (e1 e2 : Environment) : Prop := e1.metaSortKey ≤ e2.metaSortKey

instance : DecidableRel sortKeyLE :=
  fun e1 e2 => inferInstanceAs (Decidable (e1.metaSortKey ≤ e2.metaSortKey))

instance : IsTotal Environment sortKeyLE :=
  ⟨fun e1 e2 => le_total e1.metaSortKey e2.metaSortKey⟩

instance : IsTrans Environment sortKeyLE :=
  ⟨fun _ _ _ h12 h23 => le_trans h12 h23⟩

/-- The rendered reorderable list (`subEnvironments`, lines 321–323): environments
whose `parentId` strictly equals `baseEnvironment && baseEnvironment._id` (when the
base is null the conjunction is null and no string `parentId` matches), stably sorted
ascending by `metaSortKey` (JS `Array.prototype.sort` is stable; a stable insertion
sort models it). -/
def subEnvironments (environments : List Environment) (baseEnvironment : Option Environment) : List Environment :=
  (environments.filter fun environment =>
    match baseEnvironment with
    | some base => environment.parentId == base._id
    | none => false).insertionSort sortKeyLE

/-- Derived value `selectedEnvironment` (lines 316–318): the base environment when the
selection strictly equals its id, otherwise the first sub-environment (filtered by
parent id) whose id equals the selection, or null. -/
def selectedEnvironment (store : Store) (st : LocalState) : Option Environment :=
  if strictEqStr (st.baseEnvironment.map fun b => b._id) st.selectedEnvironmentId then
    st.baseEnvironment
  else
    match st.baseEnvironment with
    | some base =>
      (store.environments.filter fun e => e.parentId == base._id).find?
        fun subEnvironment => some subEnvironment._id == st.selectedEnvironmentId
    | none => none

/-- Derived value `selectedEnvironmentColor = selectedEnvironment?.color || null`
(line 320). -/
def selectedEnvironmentColor (store : Store) (st : LocalState) : Option String :=
  jsOrNull ((selectedEnvironment store st).bind fun e => e.color)

/-- Field-wise application of an update patch by the external environment store
(`models.environment.update`). -/
def applyPatch (e : Environment) (patch : EnvironmentPatch) : Environment :=
  { e with
    name := patch.name.getD e.name
    color := patch.color.getD e.color
    metaSortKey := patch.metaSortKey.getD e.metaSortKey }

/-- Effect of one landed persistence call on the observed store. -/
def applyEffect (store : Store) : Effect → Store
  | Effect.updateEnvironment id patch =>
    { store with
      environments := store.environments.map fun e => if e._id == id then applyPatch e patch else e }
  | Effect.removeEnvironment id =>
    { store with environments := store.environments.filter fun e => e._id != id }
  | Effect.updateWorkspaceMeta active =>
    { store with workspaceMeta := store.workspaceMeta.map fun wm => { wm with activeEnvironmentId := active } }

/-- Sequence of landed persistence calls. -/
def applyEffects (store : Store) (effects : List Effect) : Store :=
  effects.foldl applyEffect store

/-- Handler `updateEnvironment` (lines 299–313): no-op on a null id; fetches the
record by id (`models.environment.getById`, a lookup in the environment collection)
and, when found, issues the update; when the fetched record is the base environment
(its `parentId` strictly equals `workspace?._id`) the updated record is reloaded into
local state. -/
def updateEnvironment (store : Store) (st : LocalState) (environmentId : Option String)
    (patch : EnvironmentPatch) : LocalState × List Effect :=
  match environmentId with
  | none => (st, [])
  | some id =>
    match store.environments.find? (fun e => e._id == id) with
    | none => (st, [])
    | some realEnvironment =>
      let updated := applyPatch realEnvironment patch
      let isBaseEnvironment :=
        match store.workspace with
        | some workspace => realEnvironment.parentId == workspace._id
        | none => false
      let st' := if isBaseEnvironment then { st with baseEnvironment := some updated } else st
      (st', [Effect.updateEnvironment id patch])

/-- Reorder event delivered by the droppable collection: dragged keys, target key and
relative drop position (the strings "before" or "after"). -/
structure ReorderEvent where
  keys : List String
  targetKey : String
  dropPosition : String
deriving Repr, DecidableEq

/-- Handler `onReorder` (lines 328–343): takes the first dragged key, resolves source
and target among the rendered sub-environments, bails out if either is missing, sets
the dragged record's sort key to target − 1 ("before") or target + 1 ("after"), and
persists that sort key through `updateEnvironment`. -/
def onReorder (store : Store) (st : LocalState) (e : ReorderEvent) : LocalState × List Effect :=
  let subEnvs := subEnvironments store.environments st.baseEnvironment
  match e.keys.head? with
  | none => (st, [])
  | some source =>
    match subEnvs.find? (fun env => env._id == source), subEnvs.find? (fun env => env._id == e.targetKey) with
    | some sourceEnv, some targetEnv =>
      let newSortKey :=
        if e.dropPosition == "before" then targetEnv.metaSortKey - 1
        else if e.dropPosition == "after" then targetEnv.metaSortKey + 1
        else sourceEnv.metaSortKey
      updateEnvironment store st (some sourceEnv._id) { metaSortKey := some newSortKey }
    | _, _ => (st, [])

/-- Handler `handleDeleteEnvironment` (lines 281–297): refuses a falsy id or the base
environment's id; clears the workspace meta's active pointer when it equals the target
id; removes the record found in the environment list (if any); then resets the local
selection to `state.baseEnvironment?._id || null`. -/
def handleDeleteEnvironment (store : Store) (st : LocalState) (environmentId : Option String) :
    LocalState × List Effect :=
  if !truthyStr environmentId
      || strictEqStr environmentId (st.baseEnvironment.map fun b => b._id) then
    (st, [])
  else
    let metaEffects :=
      match store.workspaceMeta with
      | some wm => if wm.activeEnvironmentId == environmentId then [Effect.updateWorkspaceMeta none] else []
      | none => []
    let current := store.environments.find? fun e => some e._id == environmentId
    let removeEffects :=
      match current with
      | some c => [Effect.removeEnvironment c._id]
      | none => []
    ({ st with selectedEnvironmentId := jsOrNull (st.baseEnvironment.map fun b => b._id) },
     metaEffects ++ removeEffects)

/-- Selection event delivered by the list box; only its `anchorKey` is read. -/
structure SelectionEvent where
  anchorKey : Option String
deriving Repr, DecidableEq

/-- Handler `onSelectionChange` (lines 267–279): guarded by the nested data editor's
validity and a truthy anchor key; resolves the anchor among the rendered
sub-environments (`filter(...)[0]`; `none` models the TypeError the JS code throws
when no sub-environment matches), updates the local selection, and persists the new
active environment id only when it strictly differs from the recorded one and a
workspace meta record exists. -/
def onSelectionChange (store : Store) (st : LocalState) (editorIsValid : Bool)
    (e : SelectionEvent) : Option (LocalState × List Effect) :=
  if editorIsValid && truthyStr e.anchorKey then
    match (subEnvironments store.environments st.baseEnvironment).filter
        (fun env => some env._id == e.anchorKey) |>.head? with
    | none => none
    | some environment =>
      let st' := { st with selectedEnvironmentId := jsOrNull (some environment._id) }
      let effects :=
        match store.workspaceMeta with
        | some wm =>
          if wm.activeEnvironmentId == some environment._id then []
          else [Effect.updateWorkspaceMeta (some environment._id)]
        | none => []
      some (st', effects)
  else
    some (st, [])

/-- Arguments of a `models.environment.create` call issued by the create handlers. -/
structure CreateCall where
  parentId : String
  isPrivate : Bool
deriving Repr, DecidableEq

/-- Click handler of the "Environment" create item (lines 389–400): with a loaded
base environment, creates a public sub-environment under it (the external store
assigns the fresh id `createdId`) and selects the created id. -/
def onCreateEnvironmentClick (st : LocalState) (createdId : String) :
    LocalState × List CreateCall :=
  match st.baseEnvironment with
  | none => (st, [])
  | some baseEnvironment =>
    ({ st with selectedEnvironmentId := some createdId },
     [{ parentId := baseEnvironment._id, isPrivate := false }])

/-- Click handler of the "Private Environment" create item (lines 407–418): same as
the public variant with the privacy flag set. -/
def onCreatePrivateEnvironmentClick (st : LocalState) (createdId : String) :
    LocalState × List CreateCall :=
  match st.baseEnvironment with
  | none => (st, [])
  | some baseEnvironment =>
    ({ st with selectedEnvironmentId := some createdId },
     [{ parentId := baseEnvironment._id, isPrivate := true }])

/-- Modelled from the spec: `models.environment.getOrCreateForParentId` (external
model layer, not part of this file) — "fetch-or-create the base environment for the
active workspace": returns the environment whose parent is the given workspace id, or
creates one under that workspace (fresh id supplied by the store). -/
def getOrCreateForParentId (environments : List Environment) (parentId : String)
    (freshId : String) : Environment :=
  match environments.find? (fun e => e.parentId == parentId) with
  | some e => e
  | none =>
    { _id := freshId, parentId := parentId, name := "New Environment",
      color := none, isPrivate := false, metaSortKey := 0 }

/-- Handler `show` (lines 252–264): bails out without a workspace; fetches-or-creates
the base environment for the active workspace, sets the selection to
`workspaceMeta?.activeEnvironmentId || baseEnvironment._id`, then presents the modal
(the returned flag). -/
def showModal (store : Store) (st : LocalState) (freshId : String) : LocalState × Bool :=
  match store.workspace with
  | none => (st, false)
  | some workspace =>
    let baseEnvironment := getOrCreateForParentId store.environments workspace._id freshId
    let selected :=
      jsOrDefault (store.workspaceMeta.bind fun wm => wm.activeEnvironmentId) baseEnvironment._id
    ({ st with
        baseEnvironment := some baseEnvironment
        selectedEnvironmentId := some selected },
     true)

/-- Click handler of the Base Environment sidebar button (lines 356–363): re-assigns
the selection to the base id only when the editor is valid and the selection already
strictly equals the base environment's id. -/
def baseEnvironmentButtonClick (st : LocalState) (editorIsValid : Bool) : LocalState :=
  if editorIsValid
      && strictEqStr st.selectedEnvironmentId (st.baseEnvironment.map fun b => b._id) then
    { st with selectedEnvironmentId := st.baseEnvironment.map fun b => b._id }
  else
    st

/-- Disabled flag of the "Unset Color" dropdown item (line 506):
`!selectedEnvironmentColor`. -/
def unsetColorIsDisabled (store : Store) (st : LocalState) : Bool :=
  !truthyStr (selectedEnvironmentColor store st)

/-- Click handler of the "Unset Color" item (line 509):
`updateEnvironment(selectedEnvironmentId, \x7b color: null \x7d)`. -/
def unsetColorOnClick (store : Store) (st : LocalState) : LocalState × List Effect :=
  updateEnvironment store st st.selectedEnvironmentId { color := some none }

/-- Modelled from the spec: a disabled dropdown item (`ItemContent`, external widget)
does not invoke its click handler, so a click on the "Unset Color" item changes
nothing while it is disabled. -/
def unsetColorItemClick (store : Store) (st : LocalState) : LocalState × List Effect :=
  if unsetColorIsDisabled store st then (st, []) else unsetColorOnClick store st

/-! Concrete fixtures: a workspace with a base environment and two sub-environments
A (sort key 1) and B (sort key 2), A currently active and selected. -/

/-- Base environment of the fixture workspace. -/
def baseE : Environment :=
  { _id := "env_base", parentId := "wrk_1", name := "Base Environment",
    color := none, isPrivate := false, metaSortKey := 0 }

/-- Sub-environment A of the fixture, sort key 1, no color. -/
def envA : Environment :=
  { _id := "env_a", parentId := "env_base", name := "A",
    color := none, isPrivate := false, metaSortKey := 1 }

/-- Sub-environment B of the fixture, sort key 2, colored. -/
def envB : Environment :=
  { _id := "env_b", parentId := "env_base", name := "B",
    color := some "#fff", isPrivate := false, metaSortKey := 2 }

/-- Fixture store: workspace `wrk_1`, active environment A, three environment records. -/
def store1 : Store :=
  { workspace := some { _id := "wrk_1" },
    workspaceMeta := some { activeEnvironmentId := some "env_a" },
    environments := [baseE, envA, envB] }

/-- Fixture store whose active-environment pointer names an id with no record. -/
def storeDangling : Store :=
  { workspace := some { _id := "wrk_1" },
    workspaceMeta := some { activeEnvironmentId := some "env_zzz" },
    environments := [baseE, envA, envB] }

/-- Fixture local state: base loaded, A selected. -/
def st1 : LocalState := { baseEnvironment := some baseE, selectedEnvironmentId := some "env_a" }

/-- C9: clicking the Base Environment sidebar button never changes the selected
environment id: the handler re-assigns the selection only when the current selection
already strictly equals the base environment's id, so the click always leaves the
local state unchanged. -/
theorem baseEnvironmentButtonClick_never_changes_selection
    (st : LocalState) (editorIsValid : Bool) :
    baseEnvironmentButtonClick st editorIsValid = st := by
  unfold baseEnvironmentButtonClick
  split
  · next hcond =>
    rcases st with ⟨base, sel⟩
    simp only [Bool.and_eq_true] at hcond
    rcases base with _ | b <;> rcases sel with _ | s <;>
      simp_all [strictEqStr]
  · rfl

/-- C5: deleting the base environment is a no-op: invoked with a null id or with the
base environment's id, `handleDeleteEnvironment` removes nothing, touches no
workspace-meta record and leaves the component state unchanged. -/
theorem handleDeleteEnvironment_base_noop (store : Store) (st : LocalState) :
    handleDeleteEnvironment store st none = (st, []) ∧
    (∀ b : Environment, st.baseEnvironment = some b →
      handleDeleteEnvironment store st (some b._id) = (st, [])) := by
  constructor
  · unfold handleDeleteEnvironment
    simp [truthyStr]
  · intro b hb
    unfold handleDeleteEnvironment
    by_cases hid : b._id = ""
    · simp [truthyStr, hid]
    · simp [truthyStr, hid, hb, strictEqStr]

/-- Closed instance of C5's hypotheses at the fixture. -/
theorem handleDeleteEnvironment_base_noop_witness :
    st1.baseEnvironment = some baseE ∧
    handleDeleteEnvironment store1 st1 none = (st1, []) ∧
    handleDeleteEnvironment store1 st1 (some baseE._id) = (st1, []) := by
  refine ⟨by decide, (handleDeleteEnvironment_base_noop store1 st1).1,
    (handleDeleteEnvironment_base_noop store1 st1).2 baseE (by decide)⟩

/-- C4: both create variants create a sub-environment under the loaded base
environment (parent id = base id), differ only in the privacy flag (false for the
public variant, true for the private one), and both move the local selection to the
created environment's id. -/
theorem createEnvironment_spec (st : LocalState) (b : Environment) (createdId : String)
    (hb : st.baseEnvironment = some b) :
    onCreateEnvironmentClick st createdId
      = ({ st with selectedEnvironmentId := some createdId },
         [{ parentId := b._id, isPrivate := false }]) ∧
    onCreatePrivateEnvironmentClick st createdId
      = ({ st with selectedEnvironmentId := some createdId },
         [{ parentId := b._id, isPrivate := true }]) ∧
    (onCreateEnvironmentClick st createdId).1 = (onCreatePrivateEnvironmentClick st createdId).1 ∧
    ((onCreateEnvironmentClick st createdId).2.map fun c => c.parentId)
      = ((onCreatePrivateEnvironmentClick st createdId).2.map fun c => c.parentId) := by
  unfold onCreateEnvironmentClick onCreatePrivateEnvironmentClick
  simp [hb]

/-- Closed instance of C4's hypothesis at the fixture. -/
theorem createEnvironment_spec_witness :
    st1.baseEnvironment = some baseE ∧
    onCreateEnvironmentClick st1 "env_new"
      = ({ st1 with selectedEnvironmentId := some "env_new" },
         [{ parentId := baseE._id, isPrivate := false }]) := by
  exact ⟨by decide, (createEnvironment_spec st1 baseE "env_new" (by decide)).1⟩

/-- Membership in a jsOrNull value: it is null exactly when the argument is falsy. -/
theorem jsOrNull_eq_none (x : Option String) : jsOrNull x = none ↔ truthyStr x = false := by
  unfold jsOrNull
  by_cases h : truthyStr x = true
  · simp [h]
    intro hx
    rw [hx] at h
    simp [truthyStr] at h
  · simp at h
    simp [h]

/-- Collapsing a value twice through jsOrNull keeps its truthiness. -/
theorem truthyStr_jsOrNull (x : Option String) : truthyStr (jsOrNull x) = truthyStr x := by
  unfold jsOrNull
  by_cases h : truthyStr x = true
  · rw [if_pos h, h]
  · rw [Bool.not_eq_true] at h
    rw [h]
    simp [truthyStr]

/-- C6: the rendered reorderable list contains exactly the environments whose parent
id equals the base environment's id, in ascending sort-key order, and the base
environment itself never appears in it (its parent reference is the workspace, not
itself). -/
theorem subEnvironments_spec (environments : List Environment) (base : Environment)
    (hbase : base.parentId ≠ base._id) :
    (∀ e, e ∈ subEnvironments environments (some base) ↔
        e ∈ environments ∧ e.parentId = base._id) ∧
    (subEnvironments environments (some base)).Sorted sortKeyLE ∧
    base ∉ subEnvironments environments (some base) := by
  have hmem : ∀ e, e ∈ subEnvironments environments (some base) ↔
      e ∈ environments ∧ e.parentId = base._id := by
    intro e
    unfold subEnvironments
    rw [(List.perm_insertionSort sortKeyLE _).mem_iff, List.mem_filter]
    simp
  refine ⟨hmem, List.sorted_insertionSort sortKeyLE _, fun hin => hbase ((hmem base).mp hin).2⟩

/-- Closed instance of C6's hypothesis at the fixture. -/
theorem subEnvironments_spec_witness :
    baseE.parentId ≠ baseE._id ∧
    ((envA ∈ subEnvironments store1.environments (some baseE) ↔
        envA ∈ store1.environments ∧ envA.parentId = baseE._id) ∧
      (subEnvironments store1.environments (some baseE)).Sorted sortKeyLE ∧
      baseE ∉ subEnvironments store1.environments (some baseE)) := by
  have h := subEnvironments_spec store1.environments baseE (by decide)
  exact ⟨by decide, h.1 envA, h.2.1, h.2.2⟩

/-- C1: on a reorder event whose dragged key and target key both resolve among the
rendered sub-environments, dropping before the target persists source sort key =
target sort key − 1, dropping after persists target sort key + 1, and in the fixture
scenario (A at 1, B at 2, drop A after B) the persisted list reads B then A with A at
sort key 3. -/
theorem onReorder_spec :
    (∀ (store : Store) (st : LocalState) (e : ReorderEvent) (src : String)
        (sourceEnv targetEnv : Environment),
      e.keys.head? = some src →
      (subEnvironments store.environments st.baseEnvironment).find?
          (fun env => env._id == src) = some sourceEnv →
      (subEnvironments store.environments st.baseEnvironment).find?
          (fun env => env._id == e.targetKey) = some targetEnv →
      (e.dropPosition = "before" →
        (onReorder store st e).2
          = [Effect.updateEnvironment sourceEnv._id
              { metaSortKey := some (targetEnv.metaSortKey - 1) }]) ∧
      (e.dropPosition = "after" →
        (onReorder store st e).2
          = [Effect.updateEnvironment sourceEnv._id
              { metaSortKey := some (targetEnv.metaSortKey + 1) }])) ∧
    subEnvironments
        (applyEffects store1
          (onReorder store1 st1
            { keys := ["env_a"], targetKey := "env_b", dropPosition := "after" }).2).environments
        (some baseE)
      = [envB, { envA with metaSortKey := 3 }] := by
  constructor
  · intro store st e src sourceEnv targetEnv hsrc hfs hft
    have hmemSub : sourceEnv ∈ subEnvironments store.environments st.baseEnvironment :=
      List.mem_of_find?_eq_some hfs
    have hmemEnv : sourceEnv ∈ store.environments := by
      unfold subEnvironments at hmemSub
      have h := (List.perm_insertionSort sortKeyLE _).mem_iff.mp hmemSub
      exact (List.mem_filter.mp h).1
    have hfind : ∃ realEnv,
        store.environments.find? (fun x => x._id == sourceEnv._id) = some realEnv := by
      have h : (store.environments.find? (fun x => x._id == sourceEnv._id)).isSome :=
        List.find?_isSome.mpr ⟨sourceEnv, hmemEnv, by simp⟩
      exact Option.isSome_iff_exists.mp h
    obtain ⟨realEnv, hreal⟩ := hfind
    constructor
    · intro hbefore
      unfold onReorder
      simp only [hsrc, hfs, hft, hbefore]
      unfold updateEnvironment
      simp [hreal]
    · intro hafter
      unfold onReorder
      simp only [hsrc, hfs, hft, hafter]
      unfold updateEnvironment
      simp [hreal]
  · decide

/-- Closed instance of C1's hypotheses at the fixture: dragging A after B. -/
theorem onReorder_spec_witness :
    (ReorderEvent.mk ["env_a"] "env_b" "after").keys.head? = some "env_a" ∧
    (subEnvironments store1.environments st1.baseEnvironment).find?
        (fun env => env._id == "env_a") = some envA ∧
    (subEnvironments store1.environments st1.baseEnvironment).find?
        (fun env => env._id == (ReorderEvent.mk ["env_a"] "env_b" "after").targetKey) = some envB ∧
    (onReorder store1 st1 (ReorderEvent.mk ["env_a"] "env_b" "after")).2
      = [Effect.updateEnvironment envA._id { metaSortKey := some (envB.metaSortKey + 1) }] := by
  refine ⟨by decide, by decide, by decide, ?_⟩
  exact (onReorder_spec.1 store1 st1 (ReorderEvent.mk ["env_a"] "env_b" "after")
    "env_a" envA envB (by decide) (by decide) (by decide)).2 rfl

/-- C2: deleting a sub-environment that is the currently active environment first
persists clearing the active-environment pointer, then removes the record, and resets
the local selection to the base environment's id. -/
theorem handleDeleteEnvironment_active_spec (store : Store) (st : LocalState)
    (id : String) (b : Environment) (wm : WorkspaceMeta) (cur : Environment)
    (hb : st.baseEnvironment = some b) (hne : id ≠ "") (hid : id ≠ b._id) (hbid : b._id ≠ "")
    (hwm : store.workspaceMeta = some wm) (hactive : wm.activeEnvironmentId = some id)
    (hcur : store.environments.find? (fun e => some e._id == some id) = some cur) :
    handleDeleteEnvironment store st (some id)
      = ({ st with selectedEnvironmentId := some b._id },
         [Effect.updateWorkspaceMeta none, Effect.removeEnvironment id]) := by
  have hcurid : cur._id = id := by
    have h := List.find?_some hcur
    simpa using h
  have hcur' : store.environments.find? (fun e => e._id == id) = some cur := by
    simpa using hcur
  unfold handleDeleteEnvironment
  simp [truthyStr, strictEqStr, hb, hid, hne, hwm, hactive, hcur', hcurid, jsOrNull, hbid]

/-- Closed instance of C2's hypotheses at the fixture: deleting A while A is active. -/
theorem handleDeleteEnvironment_active_spec_witness :
    st1.baseEnvironment = some baseE ∧
    store1.workspaceMeta = some { activeEnvironmentId := some "env_a" } ∧
    store1.environments.find? (fun e => some e._id == some "env_a") = some envA ∧
    handleDeleteEnvironment store1 st1 (some "env_a")
      = ({ st1 with selectedEnvironmentId := some baseE._id },
         [Effect.updateWorkspaceMeta none, Effect.removeEnvironment "env_a"]) := by
  refine ⟨by decide, by decide, by decide, ?_⟩
  exact handleDeleteEnvironment_active_spec store1 st1 "env_a" baseE
    { activeEnvironmentId := some "env_a" } envA (by decide) (by decide) (by decide)
    (by decide) (by decide) (by decide) (by decide)

/-- C3: while the nested data editor reports invalid content every selection change is
rejected (prior selection kept, no persistence call); while it is valid, an accepted
change selects the resolved sub-environment and persists the workspace's active
environment id exactly when that id differs from the recorded one. -/
theorem onSelectionChange_spec :
    (∀ (store : Store) (st : LocalState) (e : SelectionEvent),
      onSelectionChange store st false e = some (st, [])) ∧
    (∀ (store : Store) (st : LocalState) (wm : WorkspaceMeta) (e : SelectionEvent)
        (env : Environment),
      store.workspaceMeta = some wm →
      truthyStr e.anchorKey = true →
      ((subEnvironments store.environments st.baseEnvironment).filter
          (fun x => some x._id == e.anchorKey)).head? = some env →
      onSelectionChange store st true e
        = some ({ st with selectedEnvironmentId := jsOrNull (some env._id) },
            if wm.activeEnvironmentId = some env._id then []
            else [Effect.updateWorkspaceMeta (some env._id)])) := by
  constructor
  · intro store st e
    unfold onSelectionChange
    simp
  · intro store st wm e env hwm htruthy hfind
    unfold onSelectionChange
    rw [htruthy]
    simp only [Bool.and_self, if_pos rfl]
    rw [hfind]
    simp [hwm]

/-- Closed instance of C3's hypotheses at the fixture: selecting B while A is the
recorded active environment and the editor is valid. -/
theorem onSelectionChange_spec_witness :
    store1.workspaceMeta = some { activeEnvironmentId := some "env_a" } ∧
    truthyStr (SelectionEvent.mk (some "env_b")).anchorKey = true ∧
    ((subEnvironments store1.environments st1.baseEnvironment).filter
        (fun x => some x._id == (SelectionEvent.mk (some "env_b")).anchorKey)).head? = some envB ∧
    onSelectionChange store1 st1 true (SelectionEvent.mk (some "env_b"))
      = some ({ st1 with selectedEnvironmentId := jsOrNull (some envB._id) },
          if ({ activeEnvironmentId := some "env_a" } : WorkspaceMeta).activeEnvironmentId
              = some envB._id then []
          else [Effect.updateWorkspaceMeta (some envB._id)]) := by
  refine ⟨by decide, by decide, by decide, ?_⟩
  exact onSelectionChange_spec.2 store1 st1 { activeEnvironmentId := some "env_a" }
    (SelectionEvent.mk (some "env_b")) envB (by decide) (by decide) (by decide)

/-- C7: showing the modal with an active workspace loads the fetched-or-created base
environment for that workspace, presents the modal, and selects the workspace's
recorded active environment id when it is truthy, otherwise the base environment's
id; the fetch-or-create returns the existing environment parented to the workspace
when there is one and otherwise a fresh record parented to it. -/
theorem showModal_spec (store : Store) (st : LocalState) (freshId : String) (w : Workspace)
    (hw : store.workspace = some w) :
    (showModal store st freshId).2 = true ∧
    (showModal store st freshId).1.baseEnvironment
      = some (getOrCreateForParentId store.environments w._id freshId) ∧
    (∀ active : String,
      store.workspaceMeta.bind (fun wm => wm.activeEnvironmentId) = some active → active ≠ "" →
      (showModal store st freshId).1.selectedEnvironmentId = some active) ∧
    (truthyStr (store.workspaceMeta.bind fun wm => wm.activeEnvironmentId) = false →
      (showModal store st freshId).1.selectedEnvironmentId
        = some (getOrCreateForParentId store.environments w._id freshId)._id) ∧
    (∀ b : Environment, store.environments.find? (fun x => x.parentId == w._id) = some b →
      getOrCreateForParentId store.environments w._id freshId = b) ∧
    (store.environments.find? (fun x => x.parentId == w._id) = none →
      (getOrCreateForParentId store.environments w._id freshId).parentId = w._id) := by
  unfold showModal
  rw [hw]
  refine ⟨rfl, rfl, ?_, ?_, ?_, ?_⟩
  · intro active hactive hne
    simp [hactive, jsOrDefault, hne]
  · intro hfalsy
    rcases hx : store.workspaceMeta.bind fun wm => wm.activeEnvironmentId with _ | a
    · simp [hx, jsOrDefault]
    · rw [hx] at hfalsy
      simp [truthyStr] at hfalsy
      simp [hx, jsOrDefault, hfalsy]
  · intro b hfindb
    unfold getOrCreateForParentId
    rw [hfindb]
  · intro hnone
    unfold getOrCreateForParentId
    rw [hnone]

/-- Closed instance of C7's hypotheses at the fixture: workspace present, active id
recorded and truthy. -/
theorem showModal_spec_witness :
    store1.workspace = some { _id := "wrk_1" } ∧
    store1.workspaceMeta.bind (fun wm => wm.activeEnvironmentId) = some "env_a" ∧
    (showModal store1 st1 "env_fresh").2 = true ∧
    (showModal store1 st1 "env_fresh").1.selectedEnvironmentId = some "env_a" := by
  have h := showModal_spec store1 st1 "env_fresh" { _id := "wrk_1" } (by decide)
  exact ⟨by decide, by decide, h.1, h.2.2.1 "env_a" (by decide) (by decide)⟩

/-- C8: the "Unset Color" item is disabled exactly when the selected environment has
no (truthy) color; while disabled a click changes nothing; while enabled a click
persists a color-null patch for the selected environment, after which that record's
color is cleared. -/
theorem unsetColor_spec :
    (∀ (store : Store) (st : LocalState),
      unsetColorIsDisabled store st = true ↔ selectedEnvironmentColor store st = none) ∧
    (∀ (store : Store) (st : LocalState),
      unsetColorIsDisabled store st = true → unsetColorItemClick store st = (st, [])) ∧
    (∀ (store : Store) (st : LocalState) (id : String) (env : Environment),
      unsetColorIsDisabled store st = false →
      st.selectedEnvironmentId = some id →
      store.environments.find? (fun x => x._id == id) = some env →
      (unsetColorItemClick store st).2 = [Effect.updateEnvironment id { color := some none }] ∧
      (∀ x, x ∈ (applyEffects store (unsetColorItemClick store st).2).environments →
        x._id = id → x.color = none)) := by
  refine ⟨?_, ?_, ?_⟩
  · intro store st
    unfold unsetColorIsDisabled selectedEnvironmentColor
    rw [Bool.not_eq_true', truthyStr_jsOrNull, jsOrNull_eq_none]
  · intro store st h
    unfold unsetColorItemClick
    rw [h]
    simp
  · intro store st id env hdis hsel hfind
    have hclick : unsetColorItemClick store st
        = updateEnvironment store st st.selectedEnvironmentId { color := some none } := by
      unfold unsetColorItemClick
      rw [hdis]
      rfl
    have heff : (unsetColorItemClick store st).2
        = [Effect.updateEnvironment id { color := some none }] := by
      rw [hclick, hsel]
      unfold updateEnvironment
      simp [hfind]
    refine ⟨heff, ?_⟩
    intro x hx hxid
    rw [heff] at hx
    simp only [applyEffects, List.foldl, applyEffect] at hx
    obtain ⟨y, _, hxy⟩ := List.mem_map.mp hx
    by_cases hcase : y._id = id
    · rw [← hxy]
      simp [hcase, applyPatch]
    · rw [← hxy] at hxid
      simp [hcase] at hxid

/-- Closed instance of C8's hypotheses at the fixture: B (which has a color) selected. -/
theorem unsetColor_spec_witness :
    unsetColorIsDisabled store1 { baseEnvironment := some baseE, selectedEnvironmentId := some "env_b" } = false ∧
    (unsetColorItemClick store1 { baseEnvironment := some baseE, selectedEnvironmentId := some "env_b" }).2
      = [Effect.updateEnvironment "env_b" { color := some none }] := by
  refine ⟨by decide, ?_⟩
  exact ((unsetColor_spec.2.2 store1
    { baseEnvironment := some baseE, selectedEnvironmentId := some "env_b" }
    "env_b" envB (by decide) rfl (by decide))).1

/-- C10 counterexample: the empty string is a non-null id that differs from the base
environment's id and matches no record, yet the handler's truthiness guard returns
early, so the selection is not reset to the base environment's id. -/
theorem handleDeleteEnvironment_empty_id_cex :
    (some "" : Option String) ≠ none ∧
    ("" : String) ≠ baseE._id ∧
    store1.environments.find? (fun e => some e._id == some "") = none ∧
    st1.baseEnvironment = some baseE ∧
    (handleDeleteEnvironment store1 st1 (some "")).1.selectedEnvironmentId ≠ some baseE._id := by
  decide

/-- C10 (amended): with a non-null, non-empty id that differs from the base
environment's id and matches no environment record, no remove call is issued, the
local selection is still reset to the base environment's id, and the
active-environment pointer is still cleared when it equals the target id. -/
theorem handleDeleteEnvironment_missing_spec (store : Store) (st : LocalState)
    (id : String) (b : Environment)
    (hb : st.baseEnvironment = some b) (hne : id ≠ "") (hid : id ≠ b._id) (hbid : b._id ≠ "")
    (hmiss : store.environments.find? (fun e => some e._id == some id) = none) :
    (handleDeleteEnvironment store st (some id)).1
      = { st with selectedEnvironmentId := some b._id } ∧
    (∀ x, Effect.removeEnvironment x ∉ (handleDeleteEnvironment store st (some id)).2) ∧
    (∀ wm : WorkspaceMeta, store.workspaceMeta = some wm → wm.activeEnvironmentId = some id →
      (handleDeleteEnvironment store st (some id)).2 = [Effect.updateWorkspaceMeta none]) := by
  have hmiss' : store.environments.find? (fun e => e._id == id) = none := by
    simpa using hmiss
  have hmain : handleDeleteEnvironment store st (some id)
      = ({ st with selectedEnvironmentId := some b._id },
         match store.workspaceMeta with
         | some wm =>
           if wm.activeEnvironmentId == some id then [Effect.updateWorkspaceMeta none] else []
         | none => []) := by
    unfold handleDeleteEnvironment
    simp [truthyStr, strictEqStr, hb, hid, hne, hmiss', jsOrNull, hbid]
  refine ⟨by rw [hmain], ?_, ?_⟩
  · intro x
    rw [hmain]
    rcases hwm : store.workspaceMeta with _ | wm
    · simp
    · by_cases h : wm.activeEnvironmentId == some id <;> simp [h]
  · intro wm hwm hact
    rw [hmain, hwm]
    simp [hact]

/-- Closed instance of C10's amended hypotheses at the fixture: the dangling active
pointer names a record that does not exist. -/
theorem handleDeleteEnvironment_missing_spec_witness :
    st1.baseEnvironment = some baseE ∧
    storeDangling.environments.find? (fun e => some e._id == some "env_zzz") = none ∧
    (handleDeleteEnvironment storeDangling st1 (some "env_zzz")).1
      = { st1 with selectedEnvironmentId := some baseE._id } ∧
    (handleDeleteEnvironment storeDangling st1 (some "env_zzz")).2
      = [Effect.updateWorkspaceMeta none] := by
  have h := handleDeleteEnvironment_missing_spec storeDangling st1 "env_zzz" baseE
    (by decide) (by decide) (by decide) (by decide) (by decide)
  exact ⟨by decide, by decide, h.1,
    h.2.2 { activeEnvironmentId := some "env_zzz" } (by decide) (by decide)⟩
